import Mathlib

/-!
Verification of the Letterboxd harvesting engine (`src/scraper.py`,
class `LetterboxdScraper`) against its natural-language specification.

The Python code is shallowly embedded: pure helpers become Lean
functions, time is modelled by rationals (seconds or days), HTTP
responses and pages become explicit structures, and the MongoDB store
becomes association lists of documents.  Python's process-salted
built-in string hash is modelled as an explicit function parameter.
-/

namespace Letterboxd

/-! ## Update Scheduler: `_get_update_frequency` (src/scraper.py lines 668-682)

```python
def _get_update_frequency(self, film_year, current_year):
    if film_year is None:
        return 7  # Default for films without year data
    age = current_year - film_year
    if age <= 0:      return 7
    elif age == 1:    return 14
    elif 2 <= age <= 5: return 30
    else:             return 90
```
-/

def get_update_frequency (film_year : Option Int) (current_year : Int) : Nat :=
  match film_year with
  | none => 7
  | some y =>
    let age := current_year - y
    if age ≤ 0 then 7
    else if age = 1 then 14
    else if 2 ≤ age ∧ age ≤ 5 then 30
    else 90

/-! ## Politeness Controller: `_smart_delay` (src/scraper.py lines 63-79)

```python
def _smart_delay(self, url):
    domain = urlparse(url).netloc
    current_time = time.time()
    if domain in self.domain_delays:
        elapsed = current_time - self.domain_delays[domain]
        if elapsed < self.request_delay:
            sleep_time = self.request_delay - elapsed + random.uniform(0.1, 0.5)
            time.sleep(sleep_time)
    self.domain_delays[domain] = current_time
```

The embedding takes the previous last-issue timestamp for the URL's
domain (`none` when the domain was never seen), the wall-clock time
observed at entry (`now`), the configured minimum spacing
(`request_delay`) and the jitter drawn by `random.uniform`; it returns
the slept duration, the timestamp stored back into `domain_delays`,
and the wall-clock time at which the call returns (`now + sleep`). -/

structure DelayResult where
  sleepTime : ℚ
  newLast : ℚ
  returnTime : ℚ
  deriving DecidableEq, Repr

def smart_delay (lastIssue : Option ℚ) (now request_delay jitter : ℚ) : DelayResult :=
  match lastIssue with
  | none => ⟨0, now, now⟩
  | some t =>
    let elapsed := now - t
    if elapsed < request_delay then
      let sleep_time := request_delay - elapsed + jitter
      ⟨sleep_time, now, now + sleep_time⟩
    else
      ⟨0, now, now⟩

/-! ## Update Scheduler: `_get_staggered_cutoff_date` (src/scraper.py lines 645-666)

```python
def _get_staggered_cutoff_date(self, now, frequency_days, film_id):
    film_str = str(film_id)
    if film_str.isdigit() and len(film_str) >= 4:
        film_hash = int(film_str[-4:]) % 10000
    else:
        film_hash = abs(hash(film_str)) % 10000
    fraction = film_hash / 10000.0
    staggered_days = frequency_days * fraction
    cutoff_date = now - timedelta(days=staggered_days)
    return cutoff_date
```

`hash` is CPython's built-in; for `str` arguments it is salted per
process (hash randomization, `PYTHONHASHSEED`), so the embedding takes
the process's string-hash function `pyHash` (standing for
`abs(hash(·))`) as an explicit parameter: one value of `pyHash` per
process run. -/

def is_digits (s : String) : Bool :=
  !s.isEmpty && s.toList.all Char.isDigit

def digits_to_nat (cs : List Char) : Nat :=
  cs.foldl (fun acc c => acc * 10 + (c.toNat - 48)) 0

def film_hash_of (pyHash : String → Nat) (film_str : String) : Nat :=
  if is_digits film_str && 4 ≤ film_str.length then
    digits_to_nat (film_str.toList.drop (film_str.length - 4)) % 10000
  else
    pyHash film_str % 10000

def staggered_cutoff_date (pyHash : String → Nat) (now : ℚ)
    (frequency_days : Nat) (film_id : String) : ℚ :=
  let film_hash := film_hash_of pyHash film_id
  let fraction : ℚ := (film_hash : ℚ) / 10000
  let staggered_days : ℚ := (frequency_days : ℚ) * fraction
  now - staggered_days

/-! ## Request Executor: `_make_request` (src/scraper.py lines 81-117)
and `_validate_response_headers` (lines 368-386)

```python
def _make_request(self, url, max_retries=3):
    for attempt in range(max_retries):
        try:
            self._smart_delay(url)
            response = self.session.get(url, timeout=30)
            if not self._validate_response_headers(response):
                if attempt < max_retries - 1:
                    time.sleep((2 ** attempt) + random.uniform(0.1, 1.0)); continue
                else:
                    return None
            response.raise_for_status()
            if response.status_code == 429:
                retry_after = int(response.headers.get('Retry-After', 30))
                time.sleep(retry_after); continue
            return response
        except requests.exceptions.RequestException:
            if attempt < max_retries - 1:
                time.sleep((2 ** attempt) + random.uniform(0.1, 1.0))
            else:
                return None
    return None
```

`_validate_response_headers` returns False unless the status code is
exactly 200 and the Content-Type contains text/html.
`response.raise_for_status()` raises `requests.HTTPError` (a subclass
of `RequestException`) for any 4xx or 5xx status.

The embedding consumes a list of per-attempt server outcomes (`none` =
the GET raised a network exception; `some r` = the GET returned
response `r`), one per loop iteration, and records the sleeps the loop
performs as a trace of events. -/

structure HttpResponse where
  status : Nat
  retryAfter : Option Nat
  contentTypeHtml : Bool
  deriving DecidableEq, Repr

/-- Sleeps executed by `_make_request`: `backoff a` is the
`2 ** attempt + jitter` sleep taken after a failed attempt `a`;
`rateWait s` is the `time.sleep(retry_after)` of the rate-limit
branch. -/
inductive FetchEvent where
  | backoff (attempt : Nat)
  | rateWait (seconds : Nat)
  deriving DecidableEq, Repr

def validate_response_headers (r : HttpResponse) : Bool :=
  r.status == 200 && r.contentTypeHtml

/-- `raise_for_status` raises exactly on 4xx / 5xx statuses. -/
def raises_for_status (r : HttpResponse) : Bool :=
  400 ≤ r.status

def make_request_aux : List (Option HttpResponse) → Nat →
    Option HttpResponse × List FetchEvent
  | [], _ => (none, [])
  | o :: rest, attempt =>
    match o with
    | none =>
      -- network exception raised by session.get
      if rest.isEmpty then (none, [])
      else
        let r := make_request_aux rest (attempt + 1)
        (r.1, FetchEvent.backoff attempt :: r.2)
    | some resp =>
      if !validate_response_headers resp then
        if rest.isEmpty then (none, [])
        else
          let r := make_request_aux rest (attempt + 1)
          (r.1, FetchEvent.backoff attempt :: r.2)
      else if raises_for_status resp then
        -- HTTPError caught by the except clause
        if rest.isEmpty then (none, [])
        else
          let r := make_request_aux rest (attempt + 1)
          (r.1, FetchEvent.backoff attempt :: r.2)
      else if resp.status == 429 then
        -- the dedicated rate-limit branch of the source, kept faithfully:
        -- sleep Retry-After (default 30) and continue, on every attempt
        let ra := resp.retryAfter.getD 30
        let r := make_request_aux rest (attempt + 1)
        (r.1, FetchEvent.rateWait ra :: r.2)
      else (some resp, [])

/-- `_make_request` with its `max_retries` attempt outcomes given as a
list (`outcomes.length` plays the role of `max_retries`). -/
def make_request (outcomes : List (Option HttpResponse)) :
    Option HttpResponse × List FetchEvent :=
  make_request_aux outcomes 0

/-! ## Extraction Contract: `convert_stars_to_number` (src/scraper.py lines 119-130)

```python
def convert_stars_to_number(self, stars):
    if not stars:
        return None
    return stars.count('★') + 0.5 * stars.count('½')
```
-/

def convert_stars_to_number (stars : String) : Option ℚ :=
  if stars.isEmpty then none
  else some ((stars.toList.count '★' : ℚ) + (1 / 2) * (stars.toList.count '½' : ℚ))

/-! ## Activity pages and their extraction
(src/scraper.py lines 132-157, 388-426, 428-473)

A `PageItem` is one `li` of the activity list: the poster `div`'s
attributes (`data-film-id`, `data-rating`, `data-target-link`, the
`img` alt text) and the `li`'s rating span text and liked marker.
`none` stands for a missing element or attribute; for `dataRating`
it also covers an empty `data-rating` string, which Python treats as
falsy, and the numeric value stands for `float(rating_str)`. -/

structure PageItem where
  filmId : Option String
  title : Option String
  targetLink : Option String
  dataRating : Option ℚ
  stars : Option String
  liked : Bool
  deriving DecidableEq, Repr

structure ActivityPage where
  items : List PageItem
  hasNext : Bool
  deriving DecidableEq, Repr

/-- Per-user review entry embedded in an Item (film) document:
`{'user', 'rating', 'is_liked', 'last_updated'}`. -/
structure FilmEntryReview where
  user : String
  rating : ℚ
  liked : Bool
  last_updated : ℚ
  deriving DecidableEq, Repr

/-- Per-user watch entry embedded in an Item (film) document:
`{'user', 'is_liked', 'last_updated'}`. -/
structure FilmEntryWatch where
  user : String
  liked : Bool
  last_updated : ℚ
  deriving DecidableEq, Repr

/-- The value of `data['films'][film_id]` accumulated during one
user's harvest. -/
structure FilmData where
  title : Option String
  link : Option String
  reviews : List FilmEntryReview
  watches : List FilmEntryWatch
  deriving DecidableEq, Repr

/-- One entry of a User document's `reviews` or `watches` array;
`rating` is present exactly on review entries. -/
structure UserEntry where
  film_id : String
  film_title : Option String
  film_link : Option String
  liked : Bool
  last_updated : ℚ
  rating : Option ℚ
  deriving DecidableEq, Repr

structure UserData where
  reviews : List UserEntry
  watches : List UserEntry
  deriving DecidableEq, Repr

/-- The `data` dict of `scrape_user_data` for a single user:
`data['users'][username]` and `data['films']` (an insertion-ordered
map keyed by film id). -/
structure ScrapeData where
  user : UserData
  films : List (String × FilmData)
  deriving DecidableEq, Repr

/-- `extract_film_data` (lines 132-157): registers the film in
`data['films']` on first sight and returns its id. -/
def extract_film_data (films : List (String × FilmData)) (item : PageItem) :
    List (String × FilmData) × Option String :=
  match item.filmId with
  | none => (films, none)
  | some fid =>
    (if films.any (fun p => p.1 == fid) then films
     else
       films ++ [(fid,
         ⟨item.title,
          item.targetLink.map (fun l => "https://letterboxd.com" ++ l),
          [], []⟩)],
     some fid)

def lookup_film (films : List (String × FilmData)) (fid : String) : Option FilmData :=
  (films.find? (fun p => p.1 == fid)).map Prod.snd

/-- `record_review_or_watch` (lines 388-426): appends the entry to the
user's `reviews` and the film's `reviews` when a rating is present,
else to both `watches` arrays. -/
def record_review_or_watch (data : ScrapeData) (username : String)
    (fid : String) (rating : Option ℚ) (liked : Bool) (t : ℚ) : ScrapeData :=
  let fd := (lookup_film data.films fid).getD ⟨none, none, [], []⟩
  let user_entry : UserEntry := ⟨fid, fd.title, fd.link, liked, t, rating⟩
  match rating with
  | some r =>
    { user := { data.user with reviews := data.user.reviews ++ [user_entry] },
      films := data.films.map (fun p =>
        if p.1 == fid then
          (p.1, { p.2 with reviews := p.2.reviews ++ [⟨username, r, liked, t⟩] })
        else p) }
  | none =>
    { user := { data.user with watches := data.user.watches ++ [user_entry] },
      films := data.films.map (fun p =>
        if p.1 == fid then
          (p.1, { p.2 with watches := p.2.watches ++ [⟨username, liked, t⟩] })
        else p) }

/-- Rating resolution of the `scrape_user_page` loop (lines 456-465):
the structured `data-rating` attribute when present and non-empty,
otherwise the star glyphs of `span.rating`. -/
def extract_rating (item : PageItem) : Option ℚ :=
  match item.dataRating with
  | some r => some r
  | none =>
    match item.stars with
    | some s => convert_stars_to_number s
    | none => none

/-- Body of the `for item in film_items` loop of `scrape_user_page`
(lines 449-470), also counting `films_processed`.  A falsy (empty)
film id makes the loop `continue` without recording. -/
def process_item (username : String) (t : ℚ)
    (st : ScrapeData × Nat) (item : PageItem) : ScrapeData × Nat :=
  let ex := extract_film_data st.1.films item
  let data : ScrapeData := { st.1 with films := ex.1 }
  match ex.2 with
  | none => (data, st.2)
  | some fid =>
    if fid.isEmpty then (data, st.2)
    else
      (record_review_or_watch data username fid (extract_rating item) item.liked t,
       st.2 + 1)

/-- `scrape_user_page` (lines 428-473) for a fetched page: `none`
models `_make_request` returning `None` (→ `(False, 0)`).  Returns
the updated data, the next-page marker, and `films_processed`. -/
def scrape_user_page (username : String) (t : ℚ) (data : ScrapeData)
    (page : Option ActivityPage) : ScrapeData × Bool × Nat :=
  match page with
  | none => (data, false, 0)
  | some p =>
    let r := p.items.foldl (process_item username t) (data, 0)
    (r.1, p.hasNext, r.2)

/-- The pagination loop of `scrape_user_data` (lines 489-498): the
remote's successive pages are given as a list (element `k` is page
`k+1`; past the end of the list the fetch fails).  Returns the final
data, `total_films`, and the number of loop iterations executed. -/
def scrape_user_pages (username : String) (t : ℚ) :
    List (Option ActivityPage) → ScrapeData → ScrapeData × Nat × Nat
  | [], data => (data, 0, 1)
  | page :: rest, data =>
    let r := scrape_user_page username t data page
    if r.2.1 && r.2.2 != 0 then
      let s := scrape_user_pages username t rest r.1
      (s.1, r.2.2 + s.2.1, s.2.2 + 1)
    else (r.1, r.2.2, 1)

def empty_scrape_data : ScrapeData := ⟨⟨[], []⟩, []⟩

/-! ## Merge/Upsert Engine (src/scraper.py lines 475-545) -/

/-- A User document as written by `scrape_user_data`'s
`users_collection.update_one(..., upsert=True)` with `$set` of
`username`, `reviews`, `watches`, `last_update_time`. -/
structure UserDoc where
  username : String
  reviews : List UserEntry
  watches : List UserEntry
  last_update_time : ℚ
  deriving DecidableEq, Repr

/-- The User document produced by harvesting `username` at instant `t`
against the remote pages `pages`. -/
def build_user_doc (username : String) (pages : List (Option ActivityPage))
    (t : ℚ) : UserDoc :=
  let r := scrape_user_pages username t pages empty_scrape_data
  ⟨username, r.1.user.reviews, r.1.user.watches, t⟩

/-- `update_one({"username": u}, {"$set": ...}, upsert=True)` on the
Users collection (`username` is the unique key, so replacing every
match coincides with Mongo's first-match update). -/
def upsert_user_doc (store : List UserDoc) (doc : UserDoc) : List UserDoc :=
  if store.any (fun d => d.username == doc.username) then
    store.map (fun d => if d.username == doc.username then doc else d)
  else store ++ [doc]

/-- `scrape_user_data`'s effect on the Users collection. -/
def harvest_user_store (store : List UserDoc) (username : String)
    (pages : List (Option ActivityPage)) (t : ℚ) : List UserDoc :=
  upsert_user_doc store (build_user_doc username pages t)

/-- An Item (film) document's multi-writer arrays, the part touched by
the `$pull` / `$push` sequence of `scrape_user_data` (lines 515-542). -/
structure FilmDoc where
  film_id : String
  reviews : List FilmEntryReview
  watches : List FilmEntryWatch
  deriving DecidableEq, Repr

/-- The pull-then-push merge applied to one matching Item document:
`$pull` of `{"reviews": {"user": u}, "watches": {"user": u}}`
followed by `$push` with `$each` of the freshly harvested entries. -/
def pull_push_film (d : FilmDoc) (username : String)
    (newReviews : List FilmEntryReview) (newWatches : List FilmEntryWatch) :
    FilmDoc :=
  { d with
    reviews := d.reviews.filter (fun e => e.user != username) ++ newReviews,
    watches := d.watches.filter (fun e => e.user != username) ++ newWatches }

/-- Number of entries for `u` across both arrays of an Item document. -/
def film_doc_user_entries (d : FilmDoc) (u : String) : Nat :=
  (d.reviews.filter (fun e => e.user == u)).length +
    (d.watches.filter (fun e => e.user == u)).length

/-! ## Theorems -/

/-- Claim C10: `_get_update_frequency` is total with range
{7, 14, 30, 90}, and every release year strictly greater than the
current year (a future-dated item) is treated exactly like a
current-year item: interval 7 days. -/
theorem update_frequency_total_future (film_year : Option Int) (current_year : Int) :
    (get_update_frequency film_year current_year = 7 ∨
     get_update_frequency film_year current_year = 14 ∨
     get_update_frequency film_year current_year = 30 ∨
     get_update_frequency film_year current_year = 90) ∧
    (∀ y : Int, current_year < y → get_update_frequency (some y) current_year = 7) := by
  constructor
  · cases film_year with
    | none => simp [get_update_frequency]
    | some y =>
      simp only [get_update_frequency]
      split_ifs <;> tauto
  · intro y hy
    simp only [get_update_frequency]
    rw [if_pos]
    omega

/-- Witness for C10 at concrete inputs: release year 2030, current
year 2026. -/
theorem update_frequency_total_future_check :
    (get_update_frequency (some 2030) 2026 = 7 ∨
     get_update_frequency (some 2030) 2026 = 14 ∨
     get_update_frequency (some 2030) 2026 = 30 ∨
     get_update_frequency (some 2030) 2026 = 90) ∧
    get_update_frequency (some 2030) 2026 = 7 :=
  ⟨(update_frequency_total_future (some 2030) 2026).1,
   (update_frequency_total_future (some 2030) 2026).2 2030 (by norm_num)⟩

/-- Claim C2, counterexample: an item whose metadata has no release
year gets the 7-day interval, not the 90-day interval the claim
states (`_get_update_frequency` returns 7 for `film_year is None`,
src/scraper.py line 670-671). -/
theorem unknown_year_gets_seven_not_ninety :
    get_update_frequency none 2026 = 7 ∧ get_update_frequency none 2026 ≠ 90 :=
  ⟨rfl, by decide⟩

/-- Claim C2 as amended: the interval is current year → 7 days,
previous year → 14 days, 2-5 years old → 30 days, 6 or more years
old → 90 days, and an unknown year (including an item with metadata
but no year) → 7 days, the same as a current-year item. -/
theorem update_frequency_bucket_map (cy a b : Int)
    (h30l : 2 ≤ cy - a) (h30u : cy - a ≤ 5) (h90 : 6 ≤ cy - b) :
    get_update_frequency (some cy) cy = 7 ∧
    get_update_frequency (some (cy - 1)) cy = 14 ∧
    get_update_frequency (some a) cy = 30 ∧
    get_update_frequency (some b) cy = 90 ∧
    get_update_frequency none cy = 7 := by
  refine ⟨?_, ?_, ?_, ?_, rfl⟩ <;>
    · simp only [get_update_frequency]
      split_ifs <;> omega

/-- Witness for the amended C2 at concrete years: current year 2026,
30-day item from 2023, 90-day item from 2000. -/
theorem update_frequency_bucket_map_check :
    get_update_frequency (some 2026) 2026 = 7 ∧
    get_update_frequency (some (2026 - 1)) 2026 = 14 ∧
    get_update_frequency (some 2023) 2026 = 30 ∧
    get_update_frequency (some 2000) 2026 = 90 ∧
    get_update_frequency none 2026 = 7 :=
  update_frequency_bucket_map 2026 2023 2000 (by norm_num) (by norm_num) (by norm_num)

/-- Claim C6, counterexample: `_smart_delay` stores the timestamp it
read at entry, before sleeping, so the recorded last-issue-time can
be earlier than the return time minus the jitter, and two
consecutive returns for the same host can be arbitrarily close: with
spacing 2, a first call entered at time 1/10 (last issue 0, jitter
1/10) returns at 21/10 but records 1/10; a second call entered right
at 21/10 sees elapsed 2 ≥ 2, does not sleep at all, and returns at
the same instant 21/10 — zero spacing between the two returns. -/
theorem smart_delay_presleep_timestamp_cex :
    (smart_delay (some 0) (1 / 10) 2 (1 / 10)).newLast <
      (smart_delay (some 0) (1 / 10) 2 (1 / 10)).returnTime - 1 / 10 ∧
    (smart_delay
        (some (smart_delay (some 0) (1 / 10) 2 (1 / 10)).newLast)
        (smart_delay (some 0) (1 / 10) 2 (1 / 10)).returnTime 2 (1 / 10)).returnTime -
      (smart_delay (some 0) (1 / 10) 2 (1 / 10)).returnTime = 0 := by
  norm_num [smart_delay]

/-- Claim C6 as amended: when the elapsed time since the host's last
recorded issue is below the minimum spacing, `_smart_delay` sleeps
for `(minimum_spacing - elapsed) + jitter` and returns at
`entry_time + sleep`; but the last-issue-time it stores is the
timestamp read at entry, before the sleep (so consecutive returns
are not guaranteed to be the minimum spacing apart). -/
theorem smart_delay_sleep_and_entry_timestamp (t now d j : ℚ) (h : now - t < d) :
    (smart_delay (some t) now d j).sleepTime = d - (now - t) + j ∧
    (smart_delay (some t) now d j).returnTime = now + (d - (now - t) + j) ∧
    (smart_delay (some t) now d j).newLast = now := by
  simp [smart_delay, if_pos h]

/-- Witness for the amended C6: last issue at 0, entry at 1, spacing
2, jitter 1/10. -/
theorem smart_delay_sleep_and_entry_timestamp_check :
    (smart_delay (some 0) 1 2 (1 / 10)).sleepTime = 2 - (1 - 0) + 1 / 10 ∧
    (smart_delay (some 0) 1 2 (1 / 10)).returnTime = 1 + (2 - (1 - 0) + 1 / 10) ∧
    (smart_delay (some 0) 1 2 (1 / 10)).newLast = 1 :=
  smart_delay_sleep_and_entry_timestamp 0 1 2 (1 / 10) (by norm_num)

/-- Claim C7, counterexample: for the item identity "123" (numeric but
shorter than four digits, so `_get_staggered_cutoff_date` falls into
the `abs(hash(film_str)) % 10000` branch), the staggered cutoff
depends on the process's built-in string hash: two processes whose
salted hashes of "123" are 0 and 5000 respectively compute different
cutoffs (0 versus -15 for `now` 0 and a 30-day interval), hence
different due subsets for the same `now` and item set. -/
theorem staggered_cutoff_process_dependent_cex :
    staggered_cutoff_date (fun _ => 0) 0 30 "123" ≠
      staggered_cutoff_date (fun _ => 5000) 0 30 "123" := by
  have h0 : film_hash_of (fun _ => 0) "123" = 0 := by decide
  have h5 : film_hash_of (fun _ => 5000) "123" = 5000 := by decide
  simp only [staggered_cutoff_date, h0, h5]
  norm_num

/-- Claim C7 as amended: the staggered cutoff is a deterministic
function of `(now, interval, film_id)` and of the process's built-in
string hash; for a numeric identity of at least four digits the
fraction is `(last four digits) / 10000`, so the cutoff is stable
across processes, and the fraction always lies in [0, 1) (the cutoff
lies in `(now - interval, now]`); identities that are non-numeric or
shorter than four digits use the process-salted built-in hash and are
not stable across processes. -/
theorem staggered_cutoff_digit_ids_stable (h1 h2 : String → Nat) (now : ℚ)
    (freq : Nat) (s : String) (hd : is_digits s = true) (hl : 4 ≤ s.length) :
    staggered_cutoff_date h1 now freq s = staggered_cutoff_date h2 now freq s ∧
    staggered_cutoff_date h1 now freq s ≤ now ∧
    (0 < freq → now - freq < staggered_cutoff_date h1 now freq s) := by
  have hbr : ∀ h : String → Nat, film_hash_of h s =
      digits_to_nat (s.toList.drop (s.length - 4)) % 10000 := by
    intro h
    simp [film_hash_of, hd, hl]
  have hlt : film_hash_of h1 s < 10000 := by
    rw [hbr h1]; exact Nat.mod_lt _ (by norm_num)
  refine ⟨?_, ?_, ?_⟩
  · simp [staggered_cutoff_date, hbr h1, hbr h2]
  · have hnn : (0 : ℚ) ≤ (freq : ℚ) * ((film_hash_of h1 s : ℚ) / 10000) := by
      positivity
    simp only [staggered_cutoff_date]
    linarith
  · intro hf
    have hfrac : ((film_hash_of h1 s : ℚ) / 10000) < 1 := by
      rw [div_lt_one (by norm_num)]
      exact_mod_cast hlt
    have hmul : (freq : ℚ) * ((film_hash_of h1 s : ℚ) / 10000) < (freq : ℚ) * 1 := by
      apply mul_lt_mul_of_pos_left hfrac
      exact_mod_cast hf
    simp only [staggered_cutoff_date]
    linarith

/-- Witness for the amended C7: identity "51568", interval 30,
`now` 0, two arbitrary process hashes. -/
theorem staggered_cutoff_digit_ids_stable_check :
    staggered_cutoff_date (fun _ => 0) 0 30 "51568" =
      staggered_cutoff_date (fun _ => 5000) 0 30 "51568" ∧
    staggered_cutoff_date (fun _ => 0) 0 30 "51568" ≤ 0 ∧
    (0 < 30 → (0 : ℚ) - 30 < staggered_cutoff_date (fun _ => 0) 0 30 "51568") :=
  staggered_cutoff_digit_ids_stable (fun _ => 0) (fun _ => 5000) 0 30 "51568"
    (by decide) (by decide)

/-- A rate-limited response as served on every attempt: status 429,
`Retry-After: 5`, HTML content type. -/
def resp429 : HttpResponse := ⟨429, some 5, true⟩

/-- Claim C1: the code does NOT honor the rate-limiting signal with a
Retry-After wait.  A server answering 429 (`Retry-After: 5`) on all
three attempts makes `_make_request` fail header validation each time
(`_validate_response_headers` rejects any status other than 200), so
the fetch sleeps the normal exponential backoff after attempts 0 and
1, counts every 429 against `max_retries` like a normal failure, and
returns terminal failure — the trace contains no `rateWait`: the
dedicated 429 branch of the source (lines 100-104) is unreachable,
since header validation, and `raise_for_status` after it, reject the
response first. -/
theorem rate_limit_treated_as_normal_failure :
    make_request [some resp429, some resp429, some resp429] =
      (none, [FetchEvent.backoff 0, FetchEvent.backoff 1]) ∧
    ∀ ra, FetchEvent.rateWait ra ∉
      (make_request [some resp429, some resp429, some resp429]).2 := by
  have hev : make_request [some resp429, some resp429, some resp429] =
      (none, [FetchEvent.backoff 0, FetchEvent.backoff 1]) := rfl
  refine ⟨hev, ?_⟩
  intro ra h
  rw [hev] at h
  simp at h

/-! ### List helpers for the pull-then-push merge -/

theorem filter_beq_of_tags {α : Type} (uf : α → String) (U : String) (l : List α)
    (h : ∀ e ∈ l, uf e = U) : l.filter (fun e => uf e == U) = l := by
  induction l with
  | nil => rfl
  | cons a as ih =>
    have ha : uf a = U := h a (by simp)
    have := ih (fun e he => h e (by simp [he]))
    simp [List.filter_cons, ha, this]

theorem filter_beq_of_tags_ne {α : Type} (uf : α → String) (U V : String)
    (hUV : U ≠ V) (l : List α) (h : ∀ e ∈ l, uf e = U) :
    l.filter (fun e => uf e == V) = [] := by
  induction l with
  | nil => rfl
  | cons a as ih =>
    have ha : uf a = U := h a (by simp)
    have := ih (fun e he => h e (by simp [he]))
    simp [List.filter_cons, ha, hUV, this]

theorem filter_bne_of_tags_ne {α : Type} (uf : α → String) (U V : String)
    (hUV : U ≠ V) (l : List α) (h : ∀ e ∈ l, uf e = U) :
    l.filter (fun e => uf e != V) = l := by
  induction l with
  | nil => rfl
  | cons a as ih =>
    have ha : uf a = U := h a (by simp)
    have := ih (fun e he => h e (by simp [he]))
    simp [List.filter_cons, ha, hUV, this]

theorem filter_beq_filter_bne {α : Type} (uf : α → String) (U : String) (xs : List α) :
    (xs.filter (fun e => uf e != U)).filter (fun e => uf e == U) = [] := by
  induction xs with
  | nil => rfl
  | cons a as ih =>
    by_cases h : uf a = U
    · simp [List.filter_cons, h, ih]
    · simp [List.filter_cons, h, ih]

theorem filter_beq_filter_bne_ne {α : Type} (uf : α → String) (U V : String)
    (hVU : V ≠ U) (xs : List α) :
    (xs.filter (fun e => uf e != U)).filter (fun e => uf e == V) =
      xs.filter (fun e => uf e == V) := by
  induction xs with
  | nil => rfl
  | cons a as ih =>
    by_cases hU : uf a = U
    · have hV : ¬ uf a = V := by rw [hU]; exact fun hc => hVU hc.symm
      simp [List.filter_cons, hU, hV, Ne.symm hVU, ih]
    · by_cases hV : uf a = V
      · simp [List.filter_cons, hU, hV, hVU, ih]
      · simp [List.filter_cons, hU, hV, ih]

/-- Merging user `u`'s fresh entries leaves exactly those entries for
`u` in the Item document: the pull removes all previous `u` entries
and the push appends the new ones. -/
theorem pull_push_self_count (d : FilmDoc) (u : String)
    (nR : List FilmEntryReview) (nW : List FilmEntryWatch)
    (hR : ∀ e ∈ nR, e.user = u) (hW : ∀ e ∈ nW, e.user = u) :
    film_doc_user_entries (pull_push_film d u nR nW) u = nR.length + nW.length := by
  simp only [film_doc_user_entries, pull_push_film, List.filter_append]
  rw [filter_beq_filter_bne FilmEntryReview.user u d.reviews,
    filter_beq_filter_bne FilmEntryWatch.user u d.watches,
    filter_beq_of_tags FilmEntryReview.user u nR hR,
    filter_beq_of_tags FilmEntryWatch.user u nW hW]
  simp

/-- Merging user `u`'s fresh entries leaves any other user `v`'s
entry count in the Item document untouched. -/
theorem pull_push_other_count (d : FilmDoc) (u v : String) (hvu : v ≠ u)
    (nR : List FilmEntryReview) (nW : List FilmEntryWatch)
    (hR : ∀ e ∈ nR, e.user = u) (hW : ∀ e ∈ nW, e.user = u) :
    film_doc_user_entries (pull_push_film d u nR nW) v = film_doc_user_entries d v := by
  simp only [film_doc_user_entries, pull_push_film, List.filter_append]
  rw [filter_beq_filter_bne_ne FilmEntryReview.user u v hvu d.reviews,
    filter_beq_filter_bne_ne FilmEntryWatch.user u v hvu d.watches,
    filter_beq_of_tags_ne FilmEntryReview.user u v (fun hc => hvu hc.symm) nR hR,
    filter_beq_of_tags_ne FilmEntryWatch.user u v (fun hc => hvu hc.symm) nW hW]
  simp

/-- Claim C3: for two distinct users A and B who each harvested
exactly one entry (a review or a watch) for item X, applying the
pull-then-push merge of `scrape_user_data` for A then B, or for B
then A, leaves the Item X document with exactly one
reviews-or-watches entry for A and exactly one for B, whatever
entries the document held before. -/
theorem multi_writer_merge_exactly_one (d : FilmDoc) (A B : String)
    (rA rB : List FilmEntryReview) (wA wB : List FilmEntryWatch)
    (hAB : A ≠ B)
    (hrA : ∀ e ∈ rA, e.user = A) (hwA : ∀ e ∈ wA, e.user = A)
    (hrB : ∀ e ∈ rB, e.user = B) (hwB : ∀ e ∈ wB, e.user = B)
    (hA1 : rA.length + wA.length = 1) (hB1 : rB.length + wB.length = 1) :
    (film_doc_user_entries (pull_push_film (pull_push_film d A rA wA) B rB wB) A = 1 ∧
     film_doc_user_entries (pull_push_film (pull_push_film d A rA wA) B rB wB) B = 1) ∧
    (film_doc_user_entries (pull_push_film (pull_push_film d B rB wB) A rA wA) A = 1 ∧
     film_doc_user_entries (pull_push_film (pull_push_film d B rB wB) A rA wA) B = 1) := by
  refine ⟨⟨?_, ?_⟩, ⟨?_, ?_⟩⟩
  · rw [pull_push_other_count _ B A hAB rB wB hrB hwB,
      pull_push_self_count d A rA wA hrA hwA, hA1]
  · rw [pull_push_self_count _ B rB wB hrB hwB, hB1]
  · rw [pull_push_self_count _ A rA wA hrA hwA, hA1]
  · rw [pull_push_other_count _ A B (fun hc => hAB hc.symm) rA wA hrA hwA,
      pull_push_self_count d B rB wB hrB hwB, hB1]

/-- Witness for C3: item X starts with a stale review by alice, a
review by carol and a watch by bob; alice freshly harvested one
review for X, bob one watch. -/
theorem multi_writer_merge_exactly_one_check :
    (film_doc_user_entries
        (pull_push_film
          (pull_push_film ⟨"X", [⟨"alice", 3, false, 0⟩, ⟨"carol", 2, true, 0⟩],
            [⟨"bob", true, 0⟩]⟩ "alice" [⟨"alice", 4, true, 1⟩] [])
          "bob" [] [⟨"bob", false, 1⟩]) "alice" = 1 ∧
     film_doc_user_entries
        (pull_push_film
          (pull_push_film ⟨"X", [⟨"alice", 3, false, 0⟩, ⟨"carol", 2, true, 0⟩],
            [⟨"bob", true, 0⟩]⟩ "alice" [⟨"alice", 4, true, 1⟩] [])
          "bob" [] [⟨"bob", false, 1⟩]) "bob" = 1) ∧
    (film_doc_user_entries
        (pull_push_film
          (pull_push_film ⟨"X", [⟨"alice", 3, false, 0⟩, ⟨"carol", 2, true, 0⟩],
            [⟨"bob", true, 0⟩]⟩ "bob" [] [⟨"bob", false, 1⟩])
          "alice" [⟨"alice", 4, true, 1⟩] []) "alice" = 1 ∧
     film_doc_user_entries
        (pull_push_film
          (pull_push_film ⟨"X", [⟨"alice", 3, false, 0⟩, ⟨"carol", 2, true, 0⟩],
            [⟨"bob", true, 0⟩]⟩ "bob" [] [⟨"bob", false, 1⟩])
          "alice" [⟨"alice", 4, true, 1⟩] []) "bob" = 1) :=
  multi_writer_merge_exactly_one
    ⟨"X", [⟨"alice", 3, false, 0⟩, ⟨"carol", 2, true, 0⟩], [⟨"bob", true, 0⟩]⟩
    "alice" "bob" [⟨"alice", 4, true, 1⟩] [] [] [⟨"bob", false, 1⟩]
    (by decide) (by simp) (by simp) (by simp) (by simp) rfl rfl

/-! ### Idempotence of the user-document upsert -/

theorem map_upsert_of_no_match (s : List UserDoc) (d : UserDoc)
    (hall : ∀ x ∈ s, x.username ≠ d.username) :
    s.map (fun x => if x.username = d.username then d else x) = s := by
  induction s with
  | nil => rfl
  | cons a as ih =>
    have ha : a.username ≠ d.username := hall a (by simp)
    simp [ha, ih (fun x hx => hall x (by simp [hx]))]

theorem upsert_user_doc_twice (s : List UserDoc) (d : UserDoc) :
    upsert_user_doc (upsert_user_doc s d) d = upsert_user_doc s d := by
  unfold upsert_user_doc
  by_cases h : s.any (fun x => x.username == d.username)
  · rw [if_pos h]
    have h2 : (s.map (fun x => if x.username == d.username then d else x)).any
        (fun x => x.username == d.username) = true := by
      rw [List.any_map]
      rw [List.any_eq_true] at h ⊢
      obtain ⟨x, hx, hxu⟩ := h
      exact ⟨x, hx, by simp [Function.comp, hxu]⟩
    rw [if_pos h2, List.map_map]
    congr 1
    funext x
    by_cases hx : x.username == d.username
    · simp [Function.comp, hx]
    · simp [Function.comp, hx]
  · rw [if_neg h]
    have h2 : ((s ++ [d]).any (fun x => x.username == d.username)) = true := by
      simp
    rw [if_pos h2, List.map_append]
    have hall : ∀ x ∈ s, x.username ≠ d.username := by
      intro x hx hc
      exact h (List.any_eq_true.mpr ⟨x, hx, by simp [hc]⟩)
    simp [map_upsert_of_no_match s d hall]

/-- Claim C4: harvesting the same user twice against an unchanged
remote state (the same pages, observed at the same instant) leaves
the Users collection exactly as a single harvest does: the `$set`
upsert replaces the `reviews` and `watches` arrays wholesale, so no
entries accumulate or duplicate. -/
theorem harvest_user_idempotent (store : List UserDoc) (username : String)
    (pages : List (Option ActivityPage)) (t : ℚ) :
    harvest_user_store (harvest_user_store store username pages t) username pages t =
      harvest_user_store store username pages t :=
  upsert_user_doc_twice store (build_user_doc username pages t)

/-! ### Pagination driver (C5) -/

theorem scrape_user_pages_iters_pos (u : String) (t : ℚ)
    (pages : List (Option ActivityPage)) (data : ScrapeData) :
    1 ≤ (scrape_user_pages u t pages data).2.2 := by
  cases pages with
  | nil => simp [scrape_user_pages]
  | cons p rest =>
    simp only [scrape_user_pages]
    split
    · simp
    · simp

/-- Page 1 of the scenario user "alice": 20 rated entries and a
next-page marker. -/
def alice_page_one : ActivityPage :=
  ⟨(List.range 20).map
    (fun i => ⟨some ("f" ++ toString i), none, none, some 4, none, false⟩), true⟩

/-- Page 2 of the scenario user "alice": 3 entries and no marker. -/
def alice_page_two : ActivityPage :=
  ⟨(List.range 3).map
    (fun i => ⟨some ("g" ++ toString i), none, none, some 4, none, false⟩), false⟩

def alice_pages : List (Option ActivityPage) := [some alice_page_one, some alice_page_two]

/-- Claim C5: the pagination loop runs a further iteration (fetching
page N+1) iff page N reported a next-page marker AND at least one
record was extracted from it; for the scenario user "alice" (page 1:
20 rated entries with a marker, page 2: 3 entries, no marker) the
harvest accumulates 23 entries in total and halts after page 2. -/
theorem pagination_advances_iff_marker_and_records (u : String) (t : ℚ)
    (p : ActivityPage) (rest : List (Option ActivityPage)) (data : ScrapeData) :
    (1 < (scrape_user_pages u t (some p :: rest) data).2.2 ↔
      (p.hasNext = true ∧ (scrape_user_page u t data (some p)).2.2 ≠ 0)) ∧
    ((scrape_user_pages "alice" 0 alice_pages empty_scrape_data).2.1 = 23 ∧
     (scrape_user_pages "alice" 0 alice_pages empty_scrape_data).2.2 = 2 ∧
     (build_user_doc "alice" alice_pages 0).reviews.length +
       (build_user_doc "alice" alice_pages 0).watches.length = 23) := by
  constructor
  · have hnext : (scrape_user_page u t data (some p)).2.1 = p.hasNext := by
      simp [scrape_user_page]
    simp only [scrape_user_pages]
    split
    · rename_i hc
      rw [hnext, Bool.and_eq_true, bne_iff_ne] at hc
      simp only [hc.1, hc.2, ne_eq, not_false_eq_true, and_true, true_and]
      have := scrape_user_pages_iters_pos u t rest (scrape_user_page u t data (some p)).1
      constructor
      · intro _; trivial
      · intro _; omega
    · rename_i hc
      rw [hnext, Bool.and_eq_true, bne_iff_ne] at hc
      simp only [show ¬ (1 < 1) by omega, false_iff]
      intro hcc
      exact hc ⟨hcc.1, by simpa using hcc.2⟩
  · refine ⟨by decide, by decide, by decide⟩

/-- Witness for C5: the driver does advance past alice's page 1
(marker present, 20 records), and accumulates 23 entries. -/
theorem pagination_advances_iff_marker_and_records_check :
    1 < (scrape_user_pages "alice" 0 (some alice_page_one :: [some alice_page_two])
          empty_scrape_data).2.2 ∧
    (scrape_user_pages "alice" 0 alice_pages empty_scrape_data).2.1 = 23 :=
  ⟨(pagination_advances_iff_marker_and_records "alice" 0 alice_page_one
      [some alice_page_two] empty_scrape_data).1.mpr ⟨rfl, by decide⟩,
   (pagination_advances_iff_marker_and_records "alice" 0 alice_page_one
      [some alice_page_two] empty_scrape_data).2.1⟩

/-! ### Partition of reviews and watches (C8) -/

/-- An item the `scrape_user_page` loop records and counts: it has a
poster div with a non-empty `data-film-id`. -/
def item_processed (it : PageItem) : Bool :=
  match it.filmId with
  | some fid => !fid.isEmpty
  | none => false

def rated_item (it : PageItem) : Bool := (extract_rating it).isSome

def page_processed_items (p : ActivityPage) : List PageItem :=
  p.items.filter item_processed

/-- The processed items of the pages the pagination loop actually
visits, in visit order. -/
def visited_items : List (Option ActivityPage) → List PageItem
  | [] => []
  | none :: _ => []
  | some p :: rest =>
    if p.hasNext && (page_processed_items p).length != 0 then
      page_processed_items p ++ visited_items rest
    else page_processed_items p

/-- The film ids the harvest records, in order. -/
def visited_ids (pages : List (Option ActivityPage)) : List String :=
  (visited_items pages).filterMap PageItem.filmId

theorem foldl_process_item_spec (u : String) (t : ℚ) (items : List PageItem)
    (data : ScrapeData) (n : Nat) :
    ((items.foldl (process_item u t) (data, n)).1.user.reviews.map UserEntry.film_id =
      data.user.reviews.map UserEntry.film_id ++
        ((items.filter item_processed).filter rated_item).filterMap PageItem.filmId) ∧
    ((items.foldl (process_item u t) (data, n)).1.user.watches.map UserEntry.film_id =
      data.user.watches.map UserEntry.film_id ++
        ((items.filter item_processed).filter
          (fun it => !rated_item it)).filterMap PageItem.filmId) ∧
    (items.foldl (process_item u t) (data, n)).2 =
      n + (items.filter item_processed).length := by
  induction items generalizing data n with
  | nil => simp
  | cons it rest ih =>
    rw [List.foldl_cons]
    cases hfid : it.filmId with
    | none =>
      have hstep : process_item u t (data, n) it =
          ({ data with films := (extract_film_data data.films it).1 }, n) := by
        simp [process_item, extract_film_data, hfid]
      have hp : item_processed it = false := by simp [item_processed, hfid]
      rw [hstep]
      have := ih { data with films := (extract_film_data data.films it).1 } n
      simpa [List.filter_cons, hp] using this
    | some fid =>
      by_cases hemp : fid.isEmpty
      · have hstep : process_item u t (data, n) it =
            ({ data with films := (extract_film_data data.films it).1 }, n) := by
          simp [process_item, extract_film_data, hfid, hemp]
        have hp : item_processed it = false := by simp [item_processed, hfid, hemp]
        rw [hstep]
        have := ih { data with films := (extract_film_data data.films it).1 } n
        simpa [List.filter_cons, hp] using this
      · have hp : item_processed it = true := by simp [item_processed, hfid, hemp]
        cases hr : extract_rating it with
        | some r =>
          have hrt : rated_item it = true := by simp [rated_item, hr]
          have hstep : process_item u t (data, n) it =
              (record_review_or_watch { data with films := (extract_film_data data.films it).1 }
                u fid (some r) it.liked t, n + 1) := by
            simp [process_item, extract_film_data, hfid, hemp, hr]
          rw [hstep]
          set data2 := record_review_or_watch
            { data with films := (extract_film_data data.films it).1 } u fid (some r) it.liked t with hd2
          have hrev : data2.user.reviews =
              data.user.reviews ++
                [⟨fid, ((lookup_film (extract_film_data data.films it).1 fid).getD
                    ⟨none, none, [], []⟩).title,
                  ((lookup_film (extract_film_data data.films it).1 fid).getD
                    ⟨none, none, [], []⟩).link, it.liked, t, some r⟩] := by
            simp [hd2, record_review_or_watch]
          have hwat : data2.user.watches = data.user.watches := by
            simp [hd2, record_review_or_watch]
          have := ih data2 (n + 1)
          refine ⟨?_, ?_, ?_⟩
          · rw [this.1, hrev]
            simp [List.filter_cons, hp, hrt, hfid, List.append_assoc]
          · rw [this.2.1, hwat]
            simp [List.filter_cons, hp, hrt]
          · rw [this.2.2]
            simp [List.filter_cons, hp]
            omega
        | none =>
          have hrt : rated_item it = false := by simp [rated_item, hr]
          have hstep : process_item u t (data, n) it =
              (record_review_or_watch { data with films := (extract_film_data data.films it).1 }
                u fid none it.liked t, n + 1) := by
            simp [process_item, extract_film_data, hfid, hemp, hr]
          rw [hstep]
          set data2 := record_review_or_watch
            { data with films := (extract_film_data data.films it).1 } u fid none it.liked t with hd2
          have hrev : data2.user.reviews = data.user.reviews := by
            simp [hd2, record_review_or_watch]
          have hwat : data2.user.watches =
              data.user.watches ++
                [⟨fid, ((lookup_film (extract_film_data data.films it).1 fid).getD
                    ⟨none, none, [], []⟩).title,
                  ((lookup_film (extract_film_data data.films it).1 fid).getD
                    ⟨none, none, [], []⟩).link, it.liked, t, none⟩] := by
            simp [hd2, record_review_or_watch]
          have := ih data2 (n + 1)
          refine ⟨?_, ?_, ?_⟩
          · rw [this.1, hrev]
            simp [List.filter_cons, hp, hrt]
          · rw [this.2.1, hwat]
            simp [List.filter_cons, hp, hrt, hfid, List.append_assoc]
          · rw [this.2.2]
            simp [List.filter_cons, hp]
            omega

theorem scrape_user_pages_ids (u : String) (t : ℚ)
    (pages : List (Option ActivityPage)) (data : ScrapeData) :
    ((scrape_user_pages u t pages data).1.user.reviews.map UserEntry.film_id =
      data.user.reviews.map UserEntry.film_id ++
        ((visited_items pages).filter rated_item).filterMap PageItem.filmId) ∧
    ((scrape_user_pages u t pages data).1.user.watches.map UserEntry.film_id =
      data.user.watches.map UserEntry.film_id ++
        ((visited_items pages).filter
          (fun it => !rated_item it)).filterMap PageItem.filmId) := by
  induction pages generalizing data with
  | nil => simp [scrape_user_pages, visited_items]
  | cons page rest ih =>
    cases page with
    | none => simp [scrape_user_pages, scrape_user_page, visited_items]
    | some p =>
      have hf := foldl_process_item_spec u t p.items data 0
      have hpage1 : (scrape_user_page u t data (some p)).1 =
          (p.items.foldl (process_item u t) (data, 0)).1 := by
        simp [scrape_user_page]
      have hcount : (scrape_user_page u t data (some p)).2.2 =
          (page_processed_items p).length := by
        simp only [scrape_user_page]
        rw [hf.2.2]
        simp [page_processed_items]
      have hnext : (scrape_user_page u t data (some p)).2.1 = p.hasNext := by
        simp [scrape_user_page]
      have hrev1 : (scrape_user_page u t data (some p)).1.user.reviews.map UserEntry.film_id =
          data.user.reviews.map UserEntry.film_id ++
            ((page_processed_items p).filter rated_item).filterMap PageItem.filmId := by
        rw [hpage1, hf.1]; rfl
      have hwat1 : (scrape_user_page u t data (some p)).1.user.watches.map UserEntry.film_id =
          data.user.watches.map UserEntry.film_id ++
            ((page_processed_items p).filter
              (fun it => !rated_item it)).filterMap PageItem.filmId := by
        rw [hpage1, hf.2.1]; rfl
      simp only [scrape_user_pages, visited_items]
      rw [hcount, hnext]
      by_cases hcond : (p.hasNext && ((page_processed_items p).length != 0)) = true
      · rw [if_pos hcond, if_pos hcond]
        have hrest := ih ((scrape_user_page u t data (some p)).1)
        constructor
        · rw [hrest.1, hrev1]
          simp [List.filter_append, List.filterMap_append, List.append_assoc]
        · rw [hrest.2, hwat1]
          simp [List.filter_append, List.filterMap_append, List.append_assoc]
      · rw [if_neg hcond, if_neg hcond]
        exact ⟨hrev1, hwat1⟩

/-- A page recording the same film id twice for one user: once with a
`data-rating`, once without. -/
def dup_item_page : ActivityPage :=
  ⟨[⟨some "f1", none, none, some 4, none, false⟩,
    ⟨some "f1", none, none, none, none, false⟩], false⟩

/-- Claim C8, counterexample: nothing deduplicates the recorded
entries, so when the activity pages present the same film id twice —
once rated, once unrated — the harvested User document carries that
id in `reviews` AND in `watches`: the two arrays do not partition
the user's activity on distinct items. -/
theorem duplicate_film_breaks_partition_cex :
    (build_user_doc "u" [some dup_item_page] 0).reviews.map UserEntry.film_id = ["f1"] ∧
    (build_user_doc "u" [some dup_item_page] 0).watches.map UserEntry.film_id = ["f1"] ∧
    ¬ ((build_user_doc "u" [some dup_item_page] 0).reviews.map UserEntry.film_id).Disjoint
        ((build_user_doc "u" [some dup_item_page] 0).watches.map UserEntry.film_id) := by
  refine ⟨by decide, by decide, fun hd => ?_⟩
  exact @hd "f1" (by decide) (by decide)

/-- Claim C8 as amended: provided the film ids recorded across the
visited pages are pairwise distinct (each film appears once in the
by-date activity list), the harvested User document's `reviews` and
`watches` arrays partition the user's activity: no film id occurs in
both arrays and none occurs twice within either. -/
theorem partition_of_distinct_ids (u : String) (t : ℚ)
    (pages : List (Option ActivityPage)) (h : (visited_ids pages).Nodup) :
    ((build_user_doc u pages t).reviews.map UserEntry.film_id).Nodup ∧
    ((build_user_doc u pages t).watches.map UserEntry.film_id).Nodup ∧
    ((build_user_doc u pages t).reviews.map UserEntry.film_id).Disjoint
      ((build_user_doc u pages t).watches.map UserEntry.film_id) := by
  have hs := scrape_user_pages_ids u t pages empty_scrape_data
  have hrev : (build_user_doc u pages t).reviews.map UserEntry.film_id =
      ((visited_items pages).filter rated_item).filterMap PageItem.filmId := by
    simpa [build_user_doc, empty_scrape_data] using hs.1
  have hwat : (build_user_doc u pages t).watches.map UserEntry.film_id =
      ((visited_items pages).filter
        (fun it => !rated_item it)).filterMap PageItem.filmId := by
    simpa [build_user_doc, empty_scrape_data] using hs.2
  have hperm : ((visited_items pages).filter rated_item ++
      (visited_items pages).filter (fun it => !rated_item it)).Perm
        (visited_items pages) :=
    List.filter_append_perm _ _
  have hperm2 : (((visited_items pages).filter rated_item).filterMap PageItem.filmId ++
      ((visited_items pages).filter
        (fun it => !rated_item it)).filterMap PageItem.filmId).Perm
        (visited_ids pages) := by
    rw [← List.filterMap_append]
    exact hperm.filterMap _
  have hnd := hperm2.nodup_iff.mpr h
  rw [List.nodup_append] at hnd
  exact ⟨hrev ▸ hnd.1, hwat ▸ hnd.2.1, by rw [hrev, hwat]; exact hnd.2.2⟩

/-- A page whose two items carry distinct film ids, one rated and one
not. -/
def distinct_items_page : ActivityPage :=
  ⟨[⟨some "a1", none, none, some 4, none, false⟩,
    ⟨some "b2", none, none, none, none, true⟩], false⟩

/-- Witness for the amended C8 at a concrete harvest with distinct
film ids. -/
theorem partition_of_distinct_ids_check :
    ((build_user_doc "u" [some distinct_items_page] 0).reviews.map UserEntry.film_id).Nodup ∧
    ((build_user_doc "u" [some distinct_items_page] 0).watches.map UserEntry.film_id).Nodup ∧
    ((build_user_doc "u" [some distinct_items_page] 0).reviews.map UserEntry.film_id).Disjoint
      ((build_user_doc "u" [some distinct_items_page] 0).watches.map UserEntry.film_id) :=
  partition_of_distinct_ids "u" 0 [some distinct_items_page] (by decide)

/-! ### Rating invariant (C9) -/

/-- Claim C9, counterexample: the structured `data-rating` attribute
is parsed and stored without validation, so a page item carrying
`data-rating="7.3"` yields an extracted entry whose rating is 7.3 —
present, but neither a multiple of 0.5 nor within [0.5, 5.0]. -/
theorem unvalidated_data_rating_cex :
    (build_user_doc "u"
        [some ⟨[⟨some "f", none, none, some (73 / 10), none, false⟩], false⟩] 0).reviews.map
      UserEntry.rating = [some (73 / 10)] ∧
    ¬ ((73 : ℚ) / 10 ≤ 5) :=
  ⟨rfl, by norm_num⟩

/-- Claim C9 as amended: a rating obtained from the star-glyph path
(no structured attribute) equals `count('★') + 0.5 * count('½')` —
always a non-negative multiple of 0.5 — and lies in the closed range
[0.5, 5.0] whenever the star string carries at least one glyph and at
most ten half-steps; ratings taken from the `data-rating` attribute
are passed through unvalidated. -/
theorem star_rating_half_step_bounds (item : PageItem) (s : String) (r : ℚ)
    (hattr : item.dataRating = none) (hstars : item.stars = some s)
    (h : extract_rating item = some r) :
    r = (s.toList.count '★' : ℚ) + (1 / 2) * (s.toList.count '½' : ℚ) ∧
    (1 ≤ s.toList.count '★' + s.toList.count '½' →
     2 * s.toList.count '★' + s.toList.count '½' ≤ 10 →
     1 / 2 ≤ r ∧ r ≤ 5) := by
  have h2 : convert_stars_to_number s = some r := by
    simpa [extract_rating, hattr, hstars] using h
  rw [convert_stars_to_number] at h2
  by_cases he : s.isEmpty
  · rw [if_pos he] at h2; cases h2
  · rw [if_neg he] at h2
    have hr : r = (s.toList.count '★' : ℚ) + (1 / 2) * (s.toList.count '½' : ℚ) :=
      (Option.some_inj.mp h2).symm
    refine ⟨hr, fun hlo hhi => ?_⟩
    have hlo2 : (1 : ℚ) ≤ (s.toList.count '★' : ℚ) + (s.toList.count '½' : ℚ) := by
      exact_mod_cast hlo
    have hhi2 : 2 * (s.toList.count '★' : ℚ) + (s.toList.count '½' : ℚ) ≤ 10 := by
      exact_mod_cast hhi
    have hpos1 : (0 : ℚ) ≤ (s.toList.count '★' : ℚ) := Nat.cast_nonneg _
    have hpos2 : (0 : ℚ) ≤ (s.toList.count '½' : ℚ) := Nat.cast_nonneg _
    rw [hr]
    constructor <;> linarith

/-- Witness for the amended C9: the star string "★★½" gives the
rating 5/2, within bounds. -/
theorem star_rating_half_step_bounds_check :
    (5 : ℚ) / 2 = ("★★½".toList.count '★' : ℚ) + (1 / 2) * ("★★½".toList.count '½' : ℚ) ∧
    (1 / 2 ≤ (5 : ℚ) / 2 ∧ (5 : ℚ) / 2 ≤ 5) := by
  have hc1 : "★★½".toList.count '★' = 2 := by decide
  have hc2 : "★★½".toList.count '½' = 1 := by decide
  have hext : extract_rating ⟨some "f", none, none, none, some "★★½", false⟩ =
      some (5 / 2) := by
    show convert_stars_to_number "★★½" = some (5 / 2)
    rw [convert_stars_to_number, if_neg (by decide), hc1, hc2]
    norm_num
  have h := star_rating_half_step_bounds
    ⟨some "f", none, none, none, some "★★½", false⟩ "★★½" (5 / 2) rfl rfl hext
  exact ⟨h.1, h.2 (by decide) (by decide)⟩

end Letterboxd
